import Mathlib

/-!
# Verification of the interactive remote-shell bridge of `cnap-tech/cli`

This file embeds, in Lean, the core of the `cnap` CLI's interactive
remote-shell bridge — `runExec`, `sendResize`, the `wsMessage` wire codec
(`internal/cmd/installs`, see `src/unnamed/part_008`), and the polling
resize watcher `monitorResize` (`internal/cmd/installs/exec_windows.go`) —
and proves the specified properties of that subsystem.

Modelling conventions:
* Go strings are Lean `String`s; Go `int` is Lean `Int`.
* JSON is modelled at the value level by the inductive `Json`; a wire
  message that is not parseable JSON at all is represented as `none` at
  the points where raw bytes enter the codec.
* `json.Marshal` of the `wsMessage` struct is `marshalWsMessage`
  (fields in struct order, `omitempty` fields dropped at their zero
  value); `json.Unmarshal` into `wsMessage` is `unmarshalWsMessage`
  (object fields folded in order, keys matched ASCII-case-insensitively
  as `encoding/json` does, `null` field values skipped, any field type
  mismatch or non-object payload an error, i.e. `none`).
-/

namespace Bridge

/-- JSON values, as produced/consumed by `encoding/json`.  Objects keep
their key/value pairs in order (duplicate keys are possible on input and
are processed left to right by `unmarshalWsMessage`, matching
`json.Unmarshal`). Numbers are restricted to integers, which covers every
value the bridge's codec emits (`cols`/`rows` are Go `int`s). -/
inductive Json where
  | str (s : String)
  | num (n : Int)
  | bool (b : Bool)
  | null
  | arr (elems : List Json)
  | obj (fields : List (String × Json))

/-- The wire-protocol frame struct, from `src/unnamed/part_008:871-877`:

```go
type wsMessage struct {
    Type    string `json:"type"`
    Data    string `json:"data,omitempty"`
    Message string `json:"message,omitempty"`
    Cols    int    `json:"cols,omitempty"`
    Rows    int    `json:"rows,omitempty"`
}
``` -/
structure wsMessage where
  type : String
  data : String
  message : String
  cols : Int
  rows : Int
deriving DecidableEq, Repr

/-- The zero `wsMessage`, the value `var msg wsMessage` starts from before
`json.Unmarshal` fills fields in. -/
def wsMessage.zero : wsMessage :=
  { type := "", data := "", message := "", cols := 0, rows := 0 }

/-- ASCII lower-casing of one character, used for `encoding/json`'s
case-insensitive field-name matching. -/
def asciiLowerChar (c : Char) : Char :=
  if 'A' ≤ c ∧ c ≤ 'Z' then Char.ofNat (c.toNat + 32) else c

/-- ASCII lower-casing of a string. -/
def asciiLower (s : String) : String :=
  ⟨s.data.map asciiLowerChar⟩

/-- `json.Marshal` of a `wsMessage`: a JSON object with the fields in
struct order; `data`, `message`, `cols`, `rows` carry `omitempty` and are
dropped at their zero value, `type` is always present. -/
def marshalWsMessage (m : wsMessage) : Json :=
  Json.obj ([("type", Json.str m.type)]
    ++ (if m.data = "" then [] else [("data", Json.str m.data)])
    ++ (if m.message = "" then [] else [("message", Json.str m.message)])
    ++ (if m.cols = 0 then [] else [("cols", Json.num m.cols)])
    ++ (if m.rows = 0 then [] else [("rows", Json.num m.rows)]))

/-- Decoding one object field into a `wsMessage` under `json.Unmarshal`'s
rules: the key is matched ASCII-case-insensitively against the field tags;
a JSON `null` value leaves the field untouched; a value of the wrong type
for a known field is an error (`none`); unknown keys are ignored. -/
def setWsField (m : wsMessage) (k : String) (v : Json) : Option wsMessage :=
  let key := asciiLower k
  if key = "type" then
    match v with
    | Json.str s => some { m with type := s }
    | Json.null => some m
    | _ => none
  else if key = "data" then
    match v with
    | Json.str s => some { m with data := s }
    | Json.null => some m
    | _ => none
  else if key = "message" then
    match v with
    | Json.str s => some { m with message := s }
    | Json.null => some m
    | _ => none
  else if key = "cols" then
    match v with
    | Json.num n => some { m with cols := n }
    | Json.null => some m
    | _ => none
  else if key = "rows" then
    match v with
    | Json.num n => some { m with rows := n }
    | Json.null => some m
    | _ => none
  else some m

/-- Folding a list of object fields into a `wsMessage`, left to right
(so a duplicate key's last occurrence wins, as with `json.Unmarshal`). -/
def setWsFields (m : wsMessage) : List (String × Json) → Option wsMessage
  | [] => some m
  | (k, v) :: rest =>
    match setWsField m k v with
    | some m' => setWsFields m' rest
    | none => none

/-- `json.Unmarshal` of a JSON value into a fresh `wsMessage` variable:
an object is decoded field by field; a top-level `null` is a no-op that
leaves the zero struct; any other top-level value is an error (`none`). -/
def unmarshalWsMessage : Json → Option wsMessage
  | Json.obj fields => setWsFields wsMessage.zero fields
  | Json.null => some wsMessage.zero
  | _ => none

/-- The protocol frames, one constructor per defined wire variant
(`§3 Frame`, realized in the code by `wsMessage` values whose `Type` is
`"input"`, `"output"`, `"resize"`, `"error"`, or `"close"`). -/
inductive Frame where
  | input (data : String)
  | output (data : String)
  | resize (cols rows : Int)
  | error (message : String)
  | close
deriving DecidableEq, Repr

/-- The `wsMessage` value each frame variant is carried by on the wire,
per the `json.Marshal` call sites (`Type:"input",Data:…` at
`part_008:847`, `Type:"resize",Cols:…,Rows:…` at `part_008:884`) and the
wire-protocol table for the server-produced variants. -/
def Frame.toWs : Frame → wsMessage
  | .input d => { wsMessage.zero with type := "input", data := d }
  | .output d => { wsMessage.zero with type := "output", data := d }
  | .resize c r => { wsMessage.zero with type := "resize", cols := c, rows := r }
  | .error msg => { wsMessage.zero with type := "error", message := msg }
  | .close => { wsMessage.zero with type := "close" }

/-- Result of decoding a wire message: either a recognized frame, or the
`Dropped` marker (the code reaches it by `continue`-ing past an
`Unmarshal` error and by the type switch matching no defined variant). -/
inductive DecodeResult where
  | frame (f : Frame)
  | dropped
deriving DecidableEq, Repr

/-- Interpreting an unmarshalled `wsMessage` as a frame by its `type`
discriminator; a value outside the five defined variants is `dropped`. -/
def fromWs (m : wsMessage) : DecodeResult :=
  if m.type = "input" then .frame (.input m.data)
  else if m.type = "output" then .frame (.output m.data)
  else if m.type = "resize" then .frame (.resize m.cols m.rows)
  else if m.type = "error" then .frame (.error m.message)
  else if m.type = "close" then .frame .close
  else .dropped

/-- `Encode`: `json.Marshal` of the frame's `wsMessage`. -/
def Encode (f : Frame) : Json :=
  marshalWsMessage f.toWs

/-- `Decode`: the codec's receive path.  The argument is the parse of the
incoming bytes (`none` when the bytes are not JSON at all); `json.Unmarshal`
failure and an unknown `type` both yield `dropped` — decoding is total and
never raises to the caller. -/
def Decode : Option Json → DecodeResult
  | none => .dropped
  | some j =>
    match unmarshalWsMessage j with
    | none => .dropped
    | some m => fromWs m

/-! ## The inbound loop

`runExec`'s first goroutine (`part_008:815-837`): read from the WebSocket,
`json.Unmarshal` each message (on failure `continue`), then switch on
`msg.Type`: `"output"` writes the data bytes to stdout, `"error"` prints a
formatted notice to stderr and continues, `"close"` returns; every other
type is ignored.  A read error also returns. -/

/-- One `conn.Read` outcome seen by the inbound loop.  `msg none` is a
message whose bytes fail `json.Unmarshal` at the parsing stage; `msg
(some j)` is a message parsed as the JSON value `j`; `readErr` is a read
error (connection closed, cancellation, or I/O failure). -/
inductive ReadEvent where
  | msg (b : Option Json)
  | readErr

/-- A local write performed by the inbound loop. -/
inductive OutAct where
  | stdout (s : String)
  | stderr (s : String)
deriving DecidableEq, Repr

/-- How the inbound loop ended: by dispatching a `close` frame, by a
read error, or not yet (the event list ran out while the loop was still
blocked in `conn.Read`). -/
inductive InboundEnd where
  | closeFrame
  | readError
  | stillRunning
deriving DecidableEq, Repr

/-- The inbound loop over a sequence of read outcomes: the local writes it
performs, in order, and how it ended (`part_008:817-837`). -/
def runInbound : List ReadEvent → List OutAct × InboundEnd
  | [] => ([], .stillRunning)
  | .readErr :: _ => ([], .readError)
  | .msg b :: rest =>
    match b with
    | none => runInbound rest
    | some j =>
      match unmarshalWsMessage j with
      | none => runInbound rest
      | some m =>
        if m.type = "output" then
          ((.stdout m.data) :: (runInbound rest).1, (runInbound rest).2)
        else if m.type = "error" then
          ((.stderr ("\r\nError: " ++ m.message ++ "\r\n")) :: (runInbound rest).1,
            (runInbound rest).2)
        else if m.type = "close" then ([], .closeFrame)
        else runInbound rest

/-! ## The polling resize watcher

`monitorResize` (`internal/cmd/installs/exec_windows.go:32-57`): query the
size once up front (returning immediately on error), then on every tick
re-query; on a query error skip the tick; if width or height differs from
the stored pair, store the new pair and emit a resize.  (The emitted
frame's content is produced by `sendResize`, which re-queries the size;
the properties below concern when an emission happens, so the emission is
recorded as the observation that triggered it.) -/

/-- A terminal size as returned by `term.GetSize` (width, height). -/
structure Size where
  w : Int
  h : Int
deriving DecidableEq, Repr

/-- The ticker loop of `monitorResize`: `w`/`h` hold the last observed
size; each tick's `term.GetSize` result is `none` on error (tick skipped)
or `some` size, compared against `(w, h)`. -/
def monitorLoop (w h : Int) : List (Option Size) → List Size
  | [] => []
  | none :: rest => monitorLoop w h rest
  | some sz :: rest =>
    if sz.w ≠ w ∨ sz.h ≠ h then sz :: monitorLoop sz.w sz.h rest
    else monitorLoop w h rest

/-- `monitorResize`: the initial `term.GetSize` (`none` = error, return at
once with no emissions), then the ticker loop. -/
def monitorResize (init : Option Size) (ticks : List (Option Size)) : List Size :=
  match init with
  | none => []
  | some sz => monitorLoop sz.w sz.h ticks

/-! ## URL construction and dial headers

`runExec` (`part_008:757-786`): parse the auth base URL, map its scheme
(`https` ↦ `wss`, anything else ↦ `ws`), overwrite the path with
`/api/exec/installs/{installID}/shell`, `Set` the three query parameters,
and re-encode the query (`url.Values.Encode` renders keys sorted).  The
dial carries an `Authorization: Bearer <token>` header and the
`User-Agent` client-identification header. -/

/-- The components of the WebSocket endpoint URL.  `query` is the encoded
query as an ordered key/value list (percent-escaping of the rendered text
is left to the URL library and not modelled; the claims concern which
parameters carry which values). -/
structure ExecURL where
  scheme : String
  host : String
  path : String
  query : List (String × String)
deriving DecidableEq, Repr

/-- `url.Values.Set`: replace any existing values for the key with the
single given value. -/
def setQuery (q : List (String × String)) (k v : String) : List (String × String) :=
  (q.filter (fun p => p.1 ≠ k)) ++ [(k, v)]

/-- Lexicographic comparison of character lists by code point, the order
`sort.Strings` (byte-wise lexicographic) induces on the ASCII keys used
here. -/
def charListLe : List Char → List Char → Bool
  | [], _ => true
  | _ :: _, [] => false
  | a :: as, b :: bs =>
    if a.toNat < b.toNat then true
    else if b.toNat < a.toNat then false
    else charListLe as bs

/-- Key order used by `url.Values.Encode`'s `sort.Strings`. -/
def keyLe (a b : String) : Bool :=
  charListLe a.data b.data

/-- Insertion of one pair into a key-sorted pair list. -/
def insertByKey (p : String × String) : List (String × String) → List (String × String)
  | [] => [p]
  | q :: rest => if keyLe p.1 q.1 then p :: q :: rest else q :: insertByKey p rest

/-- `url.Values.Encode` orders the parameters by key. -/
def sortByKey (l : List (String × String)) : List (String × String) :=
  l.foldr insertByKey []

/-- Query-parameter lookup in an encoded query. -/
def getQuery (q : List (String × String)) (k : String) : Option String :=
  (q.find? (fun p => p.1 = k)).map (fun p => p.2)

/-- The endpoint URL `runExec` dials, from the parsed auth base URL's
scheme, host and query plus the session parameters
(`part_008:765-777`). -/
def buildExecURL (baseScheme baseHost : String) (baseQuery : List (String × String))
    (installID podName containerName shell : String) : ExecURL :=
  { scheme :=
      match baseScheme with
      | "https" => "wss"
      | _ => "ws",
    host := baseHost,
    path := "/api/exec/installs/" ++ installID ++ "/shell",
    query := sortByKey (setQuery (setQuery (setQuery baseQuery "podName" podName)
      "containerName" containerName) "shell" shell) }

/-- The HTTP headers of the dial handshake (`part_008:783-786`):
the bearer credential and the client-identification header. -/
def dialHeaders (token userAgent : String) : List (String × String) :=
  [("Authorization", "Bearer " ++ token), ("User-Agent", userAgent)]

/-! ## The `runExec` session trace

`runExec` (`part_008:755-869`) as a trace of its externally visible
actions.  The sequential prelude is: dial (with `defer cancel` already
armed); on success `defer conn.CloseNow`; check `term.IsTerminal(stdin)`;
`term.MakeRaw` with `defer term.Restore`; `sendResize`; arm the signal
handler with `defer signal.Stop`; then start the inbound goroutine, the
outbound goroutine and the signal goroutine and block on `<-done`.  The
deferred calls run in LIFO order on return.  The concurrent middle of the
trace is any interleaving (`Merge3`) of the three goroutines' action
lists.  `conn.Write` failures inside the goroutines are not modelled as
separate events here (an outbound write failure simply truncates
`stdinChunks`); they are covered by the termination state machine
below. -/

/-- An externally visible action of `runExec`. -/
inductive Action where
  | dial
  | connCloseNow
  | makeRaw
  | restore
  | signalStop
  | cancel
  | frameWrite (f : Frame)
  | stdoutWrite (s : String)
  | stderrWrite (s : String)
  | connClose
deriving DecidableEq, Repr

/-- The outcome of `websocket.Dial`: success, failure with an HTTP
response (`resp != nil`, carrying a status code), or failure with no
response. -/
inductive DialOutcome where
  | ok
  | errWithResponse (status : Nat)
  | errNoResponse
deriving DecidableEq, Repr

/-- The environment one `runExec` invocation runs against. -/
structure ExecEnv where
  /-- Result of the WebSocket dial. -/
  dial : DialOutcome
  /-- Whether `term.IsTerminal(stdin)` holds. -/
  stdinIsTerminal : Bool
  /-- Whether `term.MakeRaw` succeeds. -/
  makeRawOk : Bool
  /-- Result of `term.GetSize(stdout)` inside the initial `sendResize`
  (`none` = error, in which case `sendResize` writes nothing). -/
  stdoutSize : Option Size
  /-- The read outcomes seen by the inbound goroutine, up to the one on
  which it terminates (the session completes only when the inbound loop
  terminates and closes `done`; see the termination state machine). -/
  inboundEvents : List ReadEvent
  /-- The `os.Stdin.Read` outcomes seen by the outbound goroutine
  (`none` = read error or zero bytes, ending the loop). -/
  stdinChunks : List (Option String)
  /-- The `term.GetSize(stdout)` result inside `sendResize` at each
  `SIGWINCH` delivery. -/
  winchSizes : List (Option Size)
  /-- Whether a `SIGINT`/`SIGTERM` arrives (after the listed
  `SIGWINCH`es), making the signal goroutine close the connection. -/
  interrupt : Bool

/-- The actions of one `sendResize` call (`part_008:879-886`): on a size
query error nothing is written, otherwise one resize frame. -/
def sendResizeActs (stdoutSize : Option Size) : List Action :=
  match stdoutSize with
  | none => []
  | some sz => [Action.frameWrite (Frame.resize sz.w sz.h)]

/-- The actions of the outbound goroutine (`part_008:843-853`): each read
chunk is wrapped as an `input` frame and written; a read error or empty
read ends the loop. -/
def outboundActs : List (Option String) → List Action
  | [] => []
  | none :: _ => []
  | some s :: rest => Action.frameWrite (Frame.input s) :: outboundActs rest

/-- The actions of the inbound goroutine: its local writes. -/
def inboundActs (events : List ReadEvent) : List Action :=
  (runInbound events).1.map (fun a =>
    match a with
    | .stdout s => Action.stdoutWrite s
    | .stderr s => Action.stderrWrite s)

/-- The actions of the signal goroutine (`part_008:856-865`): each
`SIGWINCH` triggers `sendResize`; a `SIGINT`/`SIGTERM` closes the
connection and ends the handler. -/
def sigActs (winchSizes : List (Option Size)) (interrupt : Bool) : List Action :=
  (winchSizes.map sendResizeActs).flatten
    ++ (if interrupt then [Action.connClose] else [])

/-- `m` is an interleaving of `a`, `b` and `c` (order within each source
preserved) — the possible schedules of the three goroutines' actions. -/
inductive Merge3 : List Action → List Action → List Action → List Action → Prop where
  | nil : Merge3 [] [] [] []
  | left (x : Action) {m a b c : List Action} :
      Merge3 m a b c → Merge3 (x :: m) (x :: a) b c
  | mid (x : Action) {m a b c : List Action} :
      Merge3 m a b c → Merge3 (x :: m) a (x :: b) c
  | right (x : Action) {m a b c : List Action} :
      Merge3 m a b c → Merge3 (x :: m) a b (x :: c)

/-- `mid` is a possible schedule of the concurrent middle of the session
under environment `env`. -/
def SessionMid (env : ExecEnv) (mid : List Action) : Prop :=
  Merge3 mid (inboundActs env.inboundEvents) (outboundActs env.stdinChunks)
    (sigActs env.winchSizes env.interrupt)

/-- The value `runExec` returns, by exit path. -/
inductive ExecResult where
  | connError (status : Option Nat)
  | notTerminal
  | rawModeError
  | ok
deriving DecidableEq, Repr

/-- The full action trace and result of one `runExec` invocation, given a
schedule `mid` of the concurrent middle.  Failure paths stop at the point
the code returns, running exactly the deferred calls armed so far; the
successful path blocks on `<-done` and then runs all four deferred calls
in LIFO order. -/
def runExecTrace (env : ExecEnv) (mid : List Action) : List Action × ExecResult :=
  match env.dial with
  | .errWithResponse st => ([Action.dial, Action.cancel], .connError (some st))
  | .errNoResponse => ([Action.dial, Action.cancel], .connError none)
  | .ok =>
    if env.stdinIsTerminal = false then
      ([Action.dial, Action.connCloseNow, Action.cancel], .notTerminal)
    else if env.makeRawOk = false then
      ([Action.dial, Action.makeRaw, Action.connCloseNow, Action.cancel], .rawModeError)
    else
      ([Action.dial, Action.makeRaw] ++ sendResizeActs env.stdoutSize ++ mid
        ++ [Action.signalStop, Action.restore, Action.connCloseNow, Action.cancel],
       .ok)

/-- The process exit code for a `runExec` result: `main` exits `1` when
`cmd.Execute()` returns an error and `0` otherwise (`cmd/cnap/main.go`),
and `runExec` returns `nil` exactly on the `.ok` path. -/
def sessionExitCode (r : ExecResult) : Nat :=
  match r with
  | .ok => 0
  | _ => 1

/-! ## Session termination: the `done` channel

`runExec` blocks on `<-done`; `done` is closed by the inbound goroutine's
`defer close(done)` and by nothing else (`part_008:812-815`, `867`).  The
outbound goroutine's `return` (stdin EOF, stdin read error, or a failed
`conn.Write`) touches no channel.  A local interrupt makes the signal
goroutine call `conn.Close`, which ends the session only indirectly, by
making the inbound goroutine's `conn.Read` fail.  The transition system
below captures exactly this synchronization structure. -/

/-- The synchronization-relevant state of a running session: which of the
two pumps have exited, and whether `runExec` has returned. -/
structure BridgeState where
  inboundDone : Bool
  outboundDone : Bool
  returned : Bool
deriving DecidableEq, Repr

/-- The possible state transitions: the outbound pump may exit on its own
(stdin EOF, stdin read error, failed connection write); the inbound pump
may exit on its own (`close` frame or `conn.Read` error, the latter
covering remote disconnect, cancellation, and interrupt-triggered
`conn.Close`); and `runExec`'s `<-done` receive can complete only once
the inbound goroutine has exited and closed `done`. -/
inductive BridgeStep : BridgeState → BridgeState → Prop where
  | outboundExit (s : BridgeState) :
      s.outboundDone = false → BridgeStep s { s with outboundDone := true }
  | inboundExit (s : BridgeState) :
      s.inboundDone = false → BridgeStep s { s with inboundDone := true }
  | mainReturn (s : BridgeState) :
      s.inboundDone = true → s.returned = false →
      BridgeStep s { s with returned := true }

/-- States reachable from the session's initial state (both pumps
running, `runExec` blocked). -/
inductive BridgeReachable : BridgeState → Prop where
  | init : BridgeReachable ⟨false, false, false⟩
  | step {s s' : BridgeState} :
      BridgeReachable s → BridgeStep s s' → BridgeReachable s'

/-! ## The terminal controller

The repository restores the terminal through a single deferred
`term.Restore(fd, oldState)` call into the external `golang.org/x/term`
library (`part_008:804`); the trace theorems below show that call happens
exactly once per session.  The spec's `TerminalController.Release` with
its idempotence guard has no counterpart under `src/`, so it is modelled
from the spec. -/

/-- Modelled from the spec: `TerminalController` owns the captured
`TerminalState`; missing from the repository sources, which delegate to
`golang.org/x/term`.  Spec: "`Release()`: restores the captured
TerminalState; idempotent — calling it more than once is a no-op after
the first call."  `rawActive` is whether the terminal is still in raw
mode; `released` is the idempotence guard. -/
structure TerminalController where
  rawActive : Bool
  released : Bool
deriving DecidableEq, Repr

/-- Modelled from the spec: `Release()` restores the captured terminal
state the first time it is called and is a no-op afterwards. -/
def Release (t : TerminalController) : TerminalController :=
  if t.released then t else { rawActive := false, released := true }

/-- Whether an action is a write of a `Resize` frame to the connection. -/
def isResizeWrite : Action → Bool
  | .frameWrite (.resize _ _) => true
  | _ => false

end Bridge

/-! ## Codec lemmas -/

namespace Bridge

theorem setWsField_type (m : wsMessage) (s : String) :
    setWsField m "type" (Json.str s) = some { m with type := s } := rfl

theorem setWsField_data (m : wsMessage) (s : String) :
    setWsField m "data" (Json.str s) = some { m with data := s } := rfl

theorem setWsField_message (m : wsMessage) (s : String) :
    setWsField m "message" (Json.str s) = some { m with message := s } := rfl

theorem setWsField_cols (m : wsMessage) (n : Int) :
    setWsField m "cols" (Json.num n) = some { m with cols := n } := rfl

theorem setWsField_rows (m : wsMessage) (n : Int) :
    setWsField m "rows" (Json.num n) = some { m with rows := n } := rfl

/-- `json.Unmarshal` inverts `json.Marshal` on every `wsMessage`,
including those whose `omitempty` fields are at their zero values (an
omitted field unmarshals to the zero value it was omitted at). -/
theorem unmarshal_marshal (m : wsMessage) :
    unmarshalWsMessage (marshalWsMessage m) = some m := by
  obtain ⟨t, d, msg, c, r⟩ := m
  by_cases hd : d = "" <;> by_cases hm : msg = "" <;>
    by_cases hc : c = 0 <;> by_cases hr : r = 0 <;>
  subst_vars <;>
  simp [marshalWsMessage, unmarshalWsMessage, setWsFields, setWsField_type,
    setWsField_data, setWsField_message, setWsField_cols, setWsField_rows,
    wsMessage.zero, *]

theorem runInbound_output (d : String) (rest : List ReadEvent) :
    runInbound (.msg (some (Encode (.output d))) :: rest) =
      ((.stdout d) :: (runInbound rest).1, (runInbound rest).2) := by
  simp [runInbound, Encode, unmarshal_marshal, Frame.toWs, wsMessage.zero]

theorem runInbound_error (m : String) (rest : List ReadEvent) :
    runInbound (.msg (some (Encode (.error m))) :: rest) =
      ((.stderr ("\r\nError: " ++ m ++ "\r\n")) :: (runInbound rest).1,
        (runInbound rest).2) := by
  simp [runInbound, Encode, unmarshal_marshal, Frame.toWs, wsMessage.zero]

theorem runInbound_close (rest : List ReadEvent) :
    runInbound (.msg (some (Encode .close)) :: rest) = ([], .closeFrame) := by
  simp [runInbound, Encode, unmarshal_marshal, Frame.toWs, wsMessage.zero]

theorem runInbound_outputs_ordered (ds : List String) :
    (runInbound (ds.map (fun d => .msg (some (Encode (.output d)))))).1 =
      ds.map OutAct.stdout := by
  induction ds with
  | nil => rfl
  | cons d rest ih => simp [runInbound_output, ih]

theorem decode_dropped_ignored (b : Option Json) (rest : List ReadEvent)
    (h : Decode b = .dropped) : runInbound (.msg b :: rest) = runInbound rest := by
  cases b with
  | none => simp [runInbound]
  | some j =>
    cases hj : unmarshalWsMessage j with
    | none => simp [runInbound, hj]
    | some m =>
      have hfw : fromWs m = .dropped := by simpa [Decode, hj] using h
      have h1 : ¬ m.type = "output" := by
        intro he; simp [fromWs, he] at hfw
      have h2 : ¬ m.type = "error" := by
        intro he; simp [fromWs, he] at hfw
      have h3 : ¬ m.type = "close" := by
        intro he; simp [fromWs, he] at hfw
      simp [runInbound, hj, h1, h2, h3]

/-! ## Trace lemmas -/

theorem Merge3_count {m a b c : List Action} (h : Merge3 m a b c) (x : Action) :
    m.count x = a.count x + b.count x + c.count x := by
  induction h with
  | nil => simp
  | left y hm ih => simp [List.count_cons, ih]; ring
  | mid y hm ih => simp [List.count_cons, ih]; ring
  | right y hm ih => simp [List.count_cons, ih]; ring

theorem restore_count_inbound (events : List ReadEvent) :
    (inboundActs events).count Action.restore = 0 := by
  rw [List.count_eq_zero]
  intro hmem
  simp only [inboundActs, List.mem_map] at hmem
  obtain ⟨a, _, ha⟩ := hmem
  cases a <;> simp at ha

theorem restore_count_outbound (chunks : List (Option String)) :
    (outboundActs chunks).count Action.restore = 0 := by
  induction chunks with
  | nil => simp [outboundActs]
  | cons c rest ih =>
    cases c <;> simp [outboundActs, List.count_cons, ih]

theorem restore_count_send (sz : Option Size) :
    (sendResizeActs sz).count Action.restore = 0 := by
  cases sz <;> simp [sendResizeActs]

theorem restore_count_sig (ws : List (Option Size)) (i : Bool) :
    (sigActs ws i).count Action.restore = 0 := by
  simp only [sigActs, List.count_append]
  have h1 : ((ws.map sendResizeActs).flatten).count Action.restore = 0 := by
    induction ws with
    | nil => simp
    | cons w rest ih =>
      simp [List.count_append, ih, restore_count_send]
  rw [h1]
  cases i <;> simp

/-- Under any schedule of a session that acquired raw mode, the deferred
`term.Restore` runs exactly once: the goroutines' actions contain no
restore, and the postlude contains exactly one. -/
theorem trace_restore_once (env : ExecEnv) (mid : List Action)
    (hmid : SessionMid env mid) (hdial : env.dial = .ok)
    (hterm : env.stdinIsTerminal = true) (hraw : env.makeRawOk = true) :
    ((runExecTrace env mid).1).count Action.restore = 1 := by
  have hm : mid.count Action.restore = 0 := by
    rw [Merge3_count hmid, restore_count_inbound, restore_count_outbound,
      restore_count_sig]
  simp [runExecTrace, hdial, hterm, hraw, List.count_append, hm, restore_count_send,
    List.count_cons]

theorem trace_shape (env : ExecEnv) (mid : List Action)
    (hdial : env.dial = .ok) (hterm : env.stdinIsTerminal = true)
    (hraw : env.makeRawOk = true) :
    (runExecTrace env mid).1 =
      [Action.dial, Action.makeRaw] ++ sendResizeActs env.stdoutSize ++ mid
        ++ [Action.signalStop, Action.restore, Action.connCloseNow, Action.cancel] := by
  simp [runExecTrace, hdial, hterm, hraw]

theorem input_after_resize (env : ExecEnv) (mid : List Action) (sz : Size)
    (hdial : env.dial = .ok) (hterm : env.stdinIsTerminal = true)
    (hraw : env.makeRawOk = true) (hsz : env.stdoutSize = some sz) :
    (runExecTrace env mid).1.get? 2 =
        some (Action.frameWrite (Frame.resize sz.w sz.h)) ∧
    ∀ i d, (runExecTrace env mid).1.get? i =
        some (Action.frameWrite (Frame.input d)) → 2 < i := by
  have hshape : (runExecTrace env mid).1 =
      Action.dial :: Action.makeRaw :: Action.frameWrite (Frame.resize sz.w sz.h)
        :: (mid ++ [Action.signalStop, Action.restore, Action.connCloseNow,
              Action.cancel]) := by
    simp [trace_shape env mid hdial hterm hraw, hsz, sendResizeActs]
  constructor
  · rw [hshape]; rfl
  · intro i d hi
    by_contra hle
    push_neg at hle
    rw [hshape] at hi
    interval_cases i <;> simp_all

/-! ## Claim theorems -/

/-- C1: for every completed session of the exec bridge that captured
terminal state (dial succeeded, stdin is a terminal, raw mode was
acquired, and the inbound loop terminated — by a remote `close` frame or
a read error, the latter covering local interrupt and I/O failure), the
trace of the session contains exactly one restore of the terminal,
whatever the exit path; and the spec-modelled
`TerminalController.Release` is idempotent: a second call is a no-op. -/
theorem spec_C1_terminal_restored_once :
    (∀ (env : ExecEnv) (mid : List Action), SessionMid env mid →
      env.dial = .ok → env.stdinIsTerminal = true → env.makeRawOk = true →
      (runInbound env.inboundEvents).2 ≠ .stillRunning →
      ((runExecTrace env mid).1).count Action.restore = 1) ∧
    (∀ t : TerminalController, Release (Release t) = Release t) := by
  constructor
  · exact fun env mid hmid hdial hterm hraw _ =>
      trace_restore_once env mid hmid hdial hterm hraw
  · intro t
    by_cases h : t.released <;> simp [Release, h]

/-- Witness for C1 at a concrete session environment (a remote-close-free
session that ends by a connection read error) and a concrete controller. -/
theorem spec_C1_witness :
    ((runExecTrace ⟨.ok, true, true, some ⟨80, 24⟩, [.readErr], [none], [], false⟩
        []).1).count Action.restore = 1 ∧
    Release (Release ⟨true, false⟩) = Release ⟨true, false⟩ :=
  ⟨spec_C1_terminal_restored_once.1
      ⟨.ok, true, true, some ⟨80, 24⟩, [.readErr], [none], [], false⟩ []
      Merge3.nil rfl rfl rfl (by decide),
   spec_C1_terminal_restored_once.2 ⟨true, false⟩⟩

/-- C2: decoding the encoding of any constructible frame of a defined
variant yields the original frame. -/
theorem spec_C2_roundtrip (f : Frame) : Decode (some (Encode f)) = .frame f := by
  cases f <;>
    simp [Decode, Encode, unmarshal_marshal, Frame.toWs, fromWs, wsMessage.zero]

/-- C5: the inbound loop dispatches by variant — an `output` frame's bytes
are written to local output immediately and in arrival order, an `error`
frame prints a formatted notice on the error stream and the loop
continues, a `close` frame terminates the loop — and a session whose
inbound loop ends on a `close` frame returns `nil`, so the process exit
code is 0. -/
theorem spec_C5_inbound_dispatch :
    (∀ (d : String) (rest : List ReadEvent),
      runInbound (.msg (some (Encode (.output d))) :: rest) =
        ((.stdout d) :: (runInbound rest).1, (runInbound rest).2)) ∧
    (∀ (ds : List String),
      (runInbound (ds.map (fun d => .msg (some (Encode (.output d)))))).1 =
        ds.map OutAct.stdout) ∧
    (∀ (m : String) (rest : List ReadEvent),
      runInbound (.msg (some (Encode (.error m))) :: rest) =
        ((.stderr ("\r\nError: " ++ m ++ "\r\n")) :: (runInbound rest).1,
          (runInbound rest).2)) ∧
    (∀ rest : List ReadEvent,
      runInbound (.msg (some (Encode .close)) :: rest) = ([], .closeFrame)) ∧
    (∀ (env : ExecEnv) (mid : List Action), SessionMid env mid →
      env.dial = .ok → env.stdinIsTerminal = true → env.makeRawOk = true →
      (runInbound env.inboundEvents).2 = .closeFrame →
      (runExecTrace env mid).2 = .ok ∧
        sessionExitCode (runExecTrace env mid).2 = 0) := by
  refine ⟨runInbound_output, runInbound_outputs_ordered, runInbound_error,
    runInbound_close, ?_⟩
  intro env mid hmid hdial hterm hraw hclose
  constructor <;> simp [runExecTrace, hdial, hterm, hraw, sessionExitCode]

/-- Witness for C5's hypothesis-bearing conjunct at a concrete session
that receives exactly one `close` frame, plus a concrete close dispatch. -/
theorem spec_C5_witness :
    runInbound [.msg (some (Encode .close))] = ([], .closeFrame) ∧
    ((runExecTrace ⟨.ok, true, true, some ⟨80, 24⟩, [.msg (some (Encode .close))],
        [none], [], false⟩ []).2 = .ok ∧
      sessionExitCode (runExecTrace ⟨.ok, true, true, some ⟨80, 24⟩,
        [.msg (some (Encode .close))], [none], [], false⟩ []).2 = 0) :=
  ⟨spec_C5_inbound_dispatch.2.2.2.1 [],
   spec_C5_inbound_dispatch.2.2.2.2
      ⟨.ok, true, true, some ⟨80, 24⟩, [.msg (some (Encode .close))], [none], [], false⟩
      [] Merge3.nil rfl rfl rfl (by decide)⟩

/-- C6: when the dial handshake fails, `runExec` ends at once with a
connection error carrying the HTTP status when a response is available
(otherwise message-only), performs no second dial (no retry), and never
puts the terminal into raw mode. -/
theorem spec_C6_dial_failure :
    (∀ (env : ExecEnv) (mid : List Action) (st : Nat),
      env.dial = .errWithResponse st →
      runExecTrace env mid = ([Action.dial, Action.cancel], .connError (some st)) ∧
      Action.makeRaw ∉ (runExecTrace env mid).1 ∧
      (runExecTrace env mid).1.count Action.dial = 1) ∧
    (∀ (env : ExecEnv) (mid : List Action),
      env.dial = .errNoResponse →
      runExecTrace env mid = ([Action.dial, Action.cancel], .connError none) ∧
      Action.makeRaw ∉ (runExecTrace env mid).1) := by
  constructor
  · intro env mid st h
    refine ⟨by simp [runExecTrace, h], ?_, ?_⟩ <;> simp [runExecTrace, h]
  · intro env mid h
    exact ⟨by simp [runExecTrace, h], by simp [runExecTrace, h]⟩

/-- Witness for C6 at an endpoint answering HTTP 401. -/
theorem spec_C6_witness :
    runExecTrace ⟨.errWithResponse 401, true, true, none, [], [], [], false⟩ [] =
      ([Action.dial, Action.cancel], .connError (some 401)) ∧
    Action.makeRaw ∉ (runExecTrace ⟨.errWithResponse 401, true, true, none, [],
      [], [], false⟩ []).1 :=
  ⟨(spec_C6_dial_failure.1 ⟨.errWithResponse 401, true, true, none, [], [], [], false⟩
      [] 401 rfl).1,
   (spec_C6_dial_failure.1 ⟨.errWithResponse 401, true, true, none, [], [], [], false⟩
      [] 401 rfl).2.1⟩

/-- C7: a wire message that is not parseable JSON, that fails
`json.Unmarshal`, or whose `type` discriminator is not a defined variant
decodes to the `Dropped` marker; decoding is total (it never raises); and
the inbound loop ignores a dropped message and continues with the next
read, never terminating the session on it. -/
theorem spec_C7_malformed_dropped :
    Decode none = .dropped ∧
    (∀ j : Json, unmarshalWsMessage j = none → Decode (some j) = .dropped) ∧
    (∀ (j : Json) (m : wsMessage), unmarshalWsMessage j = some m →
      m.type ∉ (["input", "output", "resize", "error", "close"] : List String) →
      Decode (some j) = .dropped) ∧
    (∀ b : Option Json, Decode b = .dropped ∨ ∃ f, Decode b = .frame f) ∧
    (∀ (b : Option Json) (rest : List ReadEvent), Decode b = .dropped →
      runInbound (.msg b :: rest) = runInbound rest) := by
  refine ⟨rfl, ?_, ?_, ?_, decode_dropped_ignored⟩
  · intro j h
    simp [Decode, h]
  · intro j m h hm
    simp only [List.mem_cons, List.not_mem_nil, or_false, not_or] at hm
    obtain ⟨h1, h2, h3, h4, h5⟩ := hm
    simp [Decode, h, fromWs, h1, h2, h3, h4, h5]
  · intro b
    cases hd : Decode b with
    | dropped => exact Or.inl rfl
    | frame f => exact Or.inr ⟨f, rfl⟩

/-- Witness for C7 at concrete malformed and unknown-variant inputs. -/
theorem spec_C7_witness :
    Decode (some (Json.str "hello")) = .dropped ∧
    Decode (some (Json.obj [("type", Json.str "ping")])) = .dropped ∧
    runInbound [.msg none] = runInbound [] :=
  ⟨spec_C7_malformed_dropped.2.1 (Json.str "hello") rfl,
   spec_C7_malformed_dropped.2.2.1 (Json.obj [("type", Json.str "ping")])
      { type := "ping", data := "", message := "", cols := 0, rows := 0 }
      rfl (by decide),
   spec_C7_malformed_dropped.2.2.2.2 none [] rfl⟩

/-- C3 counterexample: a fresh session in which the initial
`term.GetSize(stdout)` fails (stdin is a terminal, stdout is not) writes
no `Resize` frame at all — `sendResize` returns without writing on a size
query error — refuting "exactly one Resize frame is written at session
start in every fresh session". -/
theorem spec_C3_counterexample :
    SessionMid ⟨.ok, true, true, none, [.readErr], [none], [], false⟩ [] ∧
    ((runExecTrace ⟨.ok, true, true, none, [.readErr], [none], [], false⟩
        []).1).countP isResizeWrite = 0 := by
  exact ⟨Merge3.nil, by decide⟩

/-- C3 (amended): in every fresh session that acquired raw mode, at most
one `Resize` frame is written at session start — exactly one when the
initial terminal-size query succeeds and none when it fails — and, when
present, the session-start resize write precedes every `Input` frame
write in the trace. -/
theorem spec_C3_resize_before_input :
    ∀ (env : ExecEnv) (mid : List Action), SessionMid env mid →
      env.dial = .ok → env.stdinIsTerminal = true → env.makeRawOk = true →
      ((runExecTrace env mid).1 =
        [Action.dial, Action.makeRaw] ++ sendResizeActs env.stdoutSize ++ mid
          ++ [Action.signalStop, Action.restore, Action.connCloseNow,
              Action.cancel]) ∧
      ((sendResizeActs env.stdoutSize).countP isResizeWrite =
        match env.stdoutSize with
        | none => 0
        | some _ => 1) ∧
      (∀ sz : Size, env.stdoutSize = some sz →
        (runExecTrace env mid).1.get? 2 =
            some (Action.frameWrite (Frame.resize sz.w sz.h)) ∧
        ∀ i d, (runExecTrace env mid).1.get? i =
            some (Action.frameWrite (Frame.input d)) → 2 < i) := by
  intro env mid hmid hdial hterm hraw
  refine ⟨trace_shape env mid hdial hterm hraw, ?_, ?_⟩
  · cases hsz : env.stdoutSize <;> simp [sendResizeActs, isResizeWrite]
  · intro sz hsz
    exact input_after_resize env mid sz hdial hterm hraw hsz

/-- Witness for the amended C3 at a concrete fresh session whose size
query succeeds. -/
theorem spec_C3_witness :
    (sendResizeActs (some ⟨80, 24⟩)).countP isResizeWrite = 1 ∧
    (runExecTrace ⟨.ok, true, true, some ⟨80, 24⟩, [.readErr], [some "ls\n"], [], false⟩
        [Action.frameWrite (Frame.input "ls\n")]).1.get? 2 =
      some (Action.frameWrite (Frame.resize 80 24)) :=
  ⟨(spec_C3_resize_before_input
      ⟨.ok, true, true, some ⟨80, 24⟩, [.readErr], [some "ls\n"], [], false⟩
      [Action.frameWrite (Frame.input "ls\n")]
      (Merge3.mid (Action.frameWrite (Frame.input "ls\n")) Merge3.nil)
      rfl rfl rfl).2.1,
   ((spec_C3_resize_before_input
      ⟨.ok, true, true, some ⟨80, 24⟩, [.readErr], [some "ls\n"], [], false⟩
      [Action.frameWrite (Frame.input "ls\n")]
      (Merge3.mid (Action.frameWrite (Frame.input "ls\n")) Merge3.nil)
      rfl rfl rfl).2.2 ⟨80, 24⟩ rfl).1⟩

/-- C8: the polling watcher emits at a tick exactly when the newly
observed width or height differs from the last observed size (the stored
pair equals the last successful observation), and the reference scenario
— baseline 80×24, tick observations 80×24, 80×24, 100×30, 100×30, 80×24 —
emits exactly two resizes, on the two actual changes. -/
theorem spec_C8_poll_watcher :
    (∀ (w h : Int) (sz : Size) (rest : List (Option Size)),
      (sz.w ≠ w ∨ sz.h ≠ h →
        monitorLoop w h (some sz :: rest) = sz :: monitorLoop sz.w sz.h rest) ∧
      (sz.w = w ∧ sz.h = h →
        monitorLoop w h (some sz :: rest) = monitorLoop w h rest)) ∧
    monitorResize (some ⟨80, 24⟩)
        [some ⟨80, 24⟩, some ⟨80, 24⟩, some ⟨100, 30⟩, some ⟨100, 30⟩,
          some ⟨80, 24⟩] =
      [⟨100, 30⟩, ⟨80, 24⟩] ∧
    (monitorResize (some ⟨80, 24⟩)
        [some ⟨80, 24⟩, some ⟨80, 24⟩, some ⟨100, 30⟩, some ⟨100, 30⟩,
          some ⟨80, 24⟩]).length = 2 := by
  refine ⟨?_, by decide, by decide⟩
  intro w h sz rest
  constructor
  · intro hne; simp [monitorLoop, hne]
  · intro he; simp [monitorLoop, he.1, he.2]

/-- Witness for C8's tick law at a concrete changed and unchanged tick. -/
theorem spec_C8_witness :
    monitorLoop 80 24 [some ⟨100, 30⟩] = ⟨100, 30⟩ :: monitorLoop 100 30 [] ∧
    monitorLoop 80 24 [some ⟨80, 24⟩] = monitorLoop 80 24 [] :=
  ⟨(spec_C8_poll_watcher.1 80 24 ⟨100, 30⟩ []).1 (Or.inl (by decide)),
   (spec_C8_poll_watcher.1 80 24 ⟨80, 24⟩ []).2 ⟨rfl, rfl⟩⟩

/-- C9: the dialled URL has path `/api/exec/installs/{installID}/shell`,
query parameters `podName`, `containerName` and `shell` carrying the pod,
container and shell values, scheme `wss` for an `https` base and `ws`
otherwise; and the handshake headers carry `Authorization: Bearer
<token>` and the `User-Agent` client identification. -/
theorem spec_C9_dial_request :
    ∀ baseScheme baseHost installID p c sh token ua : String,
      (buildExecURL baseScheme baseHost [] installID p c sh).path =
          "/api/exec/installs/" ++ installID ++ "/shell" ∧
      getQuery (buildExecURL baseScheme baseHost [] installID p c sh).query
          "podName" = some p ∧
      getQuery (buildExecURL baseScheme baseHost [] installID p c sh).query
          "containerName" = some c ∧
      getQuery (buildExecURL baseScheme baseHost [] installID p c sh).query
          "shell" = some sh ∧
      (baseScheme = "https" →
        (buildExecURL baseScheme baseHost [] installID p c sh).scheme = "wss") ∧
      (baseScheme ≠ "https" →
        (buildExecURL baseScheme baseHost [] installID p c sh).scheme = "ws") ∧
      ("Authorization", "Bearer " ++ token) ∈ dialHeaders token ua ∧
      ("User-Agent", ua) ∈ dialHeaders token ua := by
  intro baseScheme baseHost installID p c sh token ua
  refine ⟨rfl, ?_, ?_, ?_, ?_, ?_, ?_, ?_⟩
  · simp [buildExecURL, setQuery, sortByKey, insertByKey, getQuery,
      show keyLe "podName" "containerName" = false from rfl,
      show keyLe "podName" "shell" = true from rfl]
  · simp [buildExecURL, setQuery, sortByKey, insertByKey, getQuery,
      show keyLe "podName" "containerName" = false from rfl,
      show keyLe "podName" "shell" = true from rfl]
  · simp [buildExecURL, setQuery, sortByKey, insertByKey, getQuery,
      show keyLe "podName" "containerName" = false from rfl,
      show keyLe "podName" "shell" = true from rfl]
  · intro hb; subst hb; rfl
  · intro hb; simp only [buildExecURL]
  · simp [dialHeaders]
  · simp [dialHeaders]

/-- Witness for C9 at a concrete non-`https` base and concrete session
parameters. -/
theorem spec_C9_witness :
    (buildExecURL "http" "localhost:8080" [] "inst-1" "pod-a" "main" "/bin/sh").path =
      "/api/exec/installs/" ++ "inst-1" ++ "/shell" ∧
    getQuery (buildExecURL "http" "localhost:8080" [] "inst-1" "pod-a" "main"
        "/bin/sh").query "podName" = some "pod-a" ∧
    (buildExecURL "http" "localhost:8080" [] "inst-1" "pod-a" "main"
        "/bin/sh").scheme = "ws" :=
  ⟨(spec_C9_dial_request "http" "localhost:8080" "inst-1" "pod-a" "main" "/bin/sh"
      "tok" "cnap-cli/1.0").1,
   (spec_C9_dial_request "http" "localhost:8080" "inst-1" "pod-a" "main" "/bin/sh"
      "tok" "cnap-cli/1.0").2.1,
   (spec_C9_dial_request "http" "localhost:8080" "inst-1" "pod-a" "main" "/bin/sh"
      "tok" "cnap-cli/1.0").2.2.2.2.2.1 (by decide)⟩

/-- C10: in every reachable state of the session's termination structure,
`runExec` has returned only if the inbound loop has exited — the `done`
channel is closed by the inbound goroutine alone — and the state in which
the outbound pump has exited while the session keeps running is
reachable: the outbound pump exiting never by itself ends the session. -/
theorem spec_C10_outbound_exit_not_terminating :
    (∀ s : BridgeState, BridgeReachable s →
      s.returned = true → s.inboundDone = true) ∧
    BridgeReachable ⟨false, true, false⟩ := by
  constructor
  · intro s h
    induction h with
    | init => intro hr; simp at hr
    | step hr hs ih =>
      cases hs with
      | outboundExit h => intro hret; exact ih hret
      | inboundExit h => intro _; rfl
      | mainReturn h1 h2 => intro _; exact h1
  · exact BridgeReachable.step BridgeReachable.init
      (BridgeStep.outboundExit ⟨false, false, false⟩ rfl)

/-- Witness for C10 at the concrete terminated state reached by inbound
exit followed by the main return. -/
theorem spec_C10_witness :
    (⟨true, false, true⟩ : BridgeState).inboundDone = true :=
  spec_C10_outbound_exit_not_terminating.1 ⟨true, false, true⟩
    (BridgeReachable.step
      (BridgeReachable.step BridgeReachable.init
        (BridgeStep.inboundExit ⟨false, false, false⟩ rfl))
      (BridgeStep.mainReturn ⟨true, false, false⟩ rfl rfl))
    rfl

end Bridge
